import Mathlib

/-
  Verification of the detection-and-grouping pipeline of the sweepzy
  backend, shallowly embedded from the Python source.

  Sources embedded here:
  - src/api/uploads/uploads_routes.py       (active endpoint upload_create_report_and_detect)
  - src/utils/geoutils.py                   (find_spatio_temporal, distance_meters)
  - src/api/litter_reports/litter_reports_service.py (assignment to nearest group)
  - src/api/litter_groups/litter_groups_service.py   (cluster suggestion input and severity)
  - src/api/litter_detections/litter_detections_service.py
      (determine_severity, fetch_image_bytes retry loop, nms, create_litter_detection)

  Machine integers and floats of the source are modelled as Int / Rat;
  the trigonometric Haversine distance is modelled over the reals.
-/

namespace Sweepzy

/-! ## Data model (relational rows) -/

/-- A row of the litter_reports table, restricted to the columns the
    pipeline reads: id, created_at (seconds), latitude, longitude,
    lifecycle status, cached severity, group assignment. -/
structure ReportRow where
  id : Nat
  createdAt : Int
  lat : ℚ
  lng : ℚ
  status : String
  severity : Option String
  groupId : Option Nat
  isGrouped : Bool
deriving DecidableEq

/-- A row of the uploads table (columns used by the endpoint). -/
structure UploadRow where
  id : Nat
  userId : Nat
  sessionId : String
  lat : ℚ
  lng : ℚ
deriving DecidableEq

/-- A row of the image_fingerprints table: report id (primary key,
    one-to-one with litter_reports), perceptual hash (bit vector,
    stored hex in the source), embedding (byte blob, modelled as the
    vector of floats it encodes). -/
structure FingerprintRow where
  reportId : Nat
  phash : List Bool
  embedding : List ℚ
deriving DecidableEq

/-- A row of the litter_groups table (columns used by radius attachment):
    id, centroid latitude/longitude, lock flag. -/
structure GroupRow where
  id : Nat
  lat : ℚ
  lng : ℚ
  isLocked : Bool
deriving DecidableEq

/-- The relational state the embedded operations read and write. -/
structure DB where
  uploads : List UploadRow
  reports : List ReportRow
  fingerprints : List FingerprintRow
  groups : List GroupRow
deriving DecidableEq

/-! ## Constants from uploads_routes.py -/

def SPATIAL_RADIUS_M : ℚ := 50
def TEMPORAL_WINDOW_S : Int := 30 * 60
def PHASH_THRESHOLD : Nat := 8

/-- Hamming distance between two perceptual hashes, as computed by the
    imagehash subtraction operator: the number of differing bits. -/
def hammingDist : List Bool → List Bool → Nat
  | [], _ => 0
  | _, [] => 0
  | x :: xs, y :: ys => (if x = y then 0 else 1) + hammingDist xs ys

/-- L2 norm squared of an embedding vector. -/
def normSq (v : List ℚ) : ℚ := (v.map (fun x => x * x)).sum

/-! ## Radius attachment (litter_reports_service.py, assign to nearest group)

The SQL runs ST_DWithin and ST_Distance on the raw geometry column in
SRID 4326 without a geography cast, so both are planar Euclidean
measures in degree coordinates.  ST_DWithin(geom, pt, radius) is
distance(geom, pt) <= radius; we encode the comparison on squared
distances, equivalent for the nonnegative radius the caller passes
(500, from create_litter_report).  ORDER BY ST_Distance LIMIT 1 picks a
minimal-distance row; ties are broken by taking the first such row. -/

/-- Squared planar degree distance between a group centroid and a point. -/
def groupDistSq (g : GroupRow) (lat lng : ℚ) : ℚ :=
  (g.lng - lng) * (g.lng - lng) + (g.lat - lat) * (g.lat - lat)

/-- One step of picking the minimal-distance row (the first minimal
    row wins ties, matching that ORDER BY with LIMIT 1 returns one
    minimal-distance row). -/
def nearestStep (lat lng : ℚ) (acc : Option GroupRow) (g : GroupRow) : Option GroupRow :=
  match acc with
  | none => some g
  | some b => if groupDistSq g lat lng < groupDistSq b lat lng then some g else acc

/-- The SELECT of assign_to_nearest_group: groups within the radius
    (degree units), nearest first, LIMIT 1.  No filter on is_locked. -/
def selectNearestGroup (groups : List GroupRow) (lat lng radius : ℚ) :
    Option GroupRow :=
  (groups.filter (fun g => groupDistSq g lat lng ≤ radius * radius)).foldl
    (nearestStep lat lng) none

/-- Full assign_to_nearest_group: if the SELECT returns a row, set
    group_id and is_grouped on the report; otherwise leave the state
    unchanged. -/
def assign_to_nearest_group (db : DB) (reportId : Nat) (lat lng radius : ℚ) : DB :=
  match selectNearestGroup db.groups lat lng radius with
  | none => db
  | some g =>
      { db with reports := db.reports.map (fun r =>
          if r.id = reportId then { r with groupId := some g.id, isGrouped := true } else r) }

/-! ## The active upload endpoint (uploads_routes.py lines 197-288)

The endpoint reads the image, computes its perceptual hash, runs the
pHash dedup against fingerprints of reports created in the last 7 days,
rejects with HTTP 409 reason phash on any match, and otherwise creates
the upload row, the report row (via create_report_controller, whose
service function create_litter_report also attempts radius attachment
with radius 500), and the fingerprint row with an empty embedding.
Fresh row ids are inputs of the model (the database generates them). -/

/-- A submission to the endpoint: the requesting user, the session, the
    perceptual hash the endpoint computes from the image bytes, the
    claimed geolocation, and the fresh ids the database will assign. -/
structure Submission where
  userId : Nat
  sessionId : String
  ph : List Bool
  lat : ℚ
  lng : ℚ
  newUploadId : Nat
  newReportId : Nat
deriving DecidableEq

/-- Outcome of the endpoint: HTTP 201 with the new report id, or an
    HTTP 409 rejection with a reason string and the matched report ids. -/
inductive UploadResult where
  | created (reportId : Nat)
  | rejected (reason : String) (ids : List Nat)
deriving DecidableEq

/-- The joined rows of the pHash dedup query: fingerprints whose report
    was created within the last 7 days (inner join on report id). -/
def recentFingerprintRows (db : DB) (now : Int) : List FingerprintRow :=
  db.fingerprints.filter (fun fp =>
    db.reports.any (fun r => r.id = fp.reportId ∧ now - 7 * 86400 ≤ r.createdAt))

/-- The dup_ids list of the endpoint: report ids of recent fingerprints
    whose hash is within PHASH_THRESHOLD of the submitted hash. -/
def phashDupIds (db : DB) (now : Int) (ph : List Bool) : List Nat :=
  ((recentFingerprintRows db now).filter
      (fun fp => hammingDist ph fp.phash ≤ PHASH_THRESHOLD)).map (fun fp => fp.reportId)

/-- The active endpoint upload_create_report_and_detect: pHash dedup,
    then upload row, report row with status pending, radius attachment,
    fingerprint row with empty embedding bytes. -/
def upload_create_report_and_detect (db : DB) (now : Int) (sub : Submission) :
    DB × UploadResult :=
  let dupIds := phashDupIds db now sub.ph
  if dupIds ≠ [] then
    (db, .rejected "phash" dupIds)
  else
    let upload : UploadRow :=
      { id := sub.newUploadId, userId := sub.userId, sessionId := sub.sessionId,
        lat := sub.lat, lng := sub.lng }
    let report : ReportRow :=
      { id := sub.newReportId, createdAt := now, lat := sub.lat, lng := sub.lng,
        status := "pending", severity := none, groupId := none, isGrouped := false }
    let db1 : DB :=
      { db with uploads := db.uploads ++ [upload], reports := db.reports ++ [report] }
    let db2 := assign_to_nearest_group db1 sub.newReportId sub.lat sub.lng 500
    let fp : FingerprintRow :=
      { reportId := sub.newReportId, phash := sub.ph, embedding := [] }
    let db3 : DB := { db2 with fingerprints := db2.fingerprints ++ [fp] }
    (db3, .created sub.newReportId)

/-! ## find_spatio_temporal (geoutils.py)

The helper queries reports whose created_at lies between ts - window_s
and ts + window_s and whose geography lies within radius_m true-meter
distance of the query point (PostGIS ST_DWithin on geography).  The
geodesic within-radius test is abstracted as a Boolean predicate on the
report row. -/

def find_spatio_temporal (reports : List ReportRow) (ts : Int) (windowS : Int)
    (withinRadius : ReportRow → Bool) : List Nat :=
  (reports.filter (fun r =>
      decide (ts - windowS ≤ r.createdAt) && decide (r.createdAt ≤ ts + windowS)
        && withinRadius r)).map (fun r => r.id)

/-! ## determine_severity (litter_detections_service.py lines 76-108)

Counts drive the base level; when an image size is supplied (a Python
truthy value, here some pair) and the box list is nonempty and the
image area is positive, the summed clamped box area can only upgrade
the level.  Boxes are lists of floats; rows shorter than 4 entries are
skipped by the sum. -/

/-- Summed clamped area of the boxes, as accumulated by the source loop. -/
def boxesAreaSum (boxes : List (List ℚ)) : ℚ :=
  (boxes.map (fun box =>
      match box with
      | x1 :: y1 :: x2 :: y2 :: _ => max 0 (x2 - x1) * max 0 (y2 - y1)
      | _ => 0)).sum

/-- The severity policy of the object detector, translated clause by
    clause from the source. -/
def determine_severity (totalCount : Nat) (boundingBoxes : List (List ℚ))
    (imageSize : Option (ℚ × ℚ)) : String :=
  if totalCount = 0 then "none"
  else
    let severity :=
      if totalCount < 5 then "low"
      else if totalCount < 15 then "medium"
      else "high"
    match imageSize with
    | none => severity
    | some (imgW, imgH) =>
        if boundingBoxes = [] then severity
        else
          let imgArea := imgW * imgH
          if imgArea ≤ 0 then severity
          else
            let density := boxesAreaSum boundingBoxes / imgArea
            if density > 1/10 ∧ severity ≠ "high" then "high"
            else if density > 1/20 ∧ severity = "low" then "medium"
            else severity

/-- The count-only part of the severity policy, stated from the words
    of the specification: none at zero objects, low below 5, medium
    below 15, high from 15 on. -/
def countSeverity (n : Nat) : String :=
  if n = 0 then "none"
  else if n < 5 then "low"
  else if n < 15 then "medium"
  else "high"

/-- Numeric rank of a severity level, for monotonicity statements. -/
def sevRank : String → Nat
  | "low" => 1
  | "medium" => 2
  | "high" => 3
  | _ => 0

/-- Modelled from the claim wording of C7: the count level, upgraded to
    high when the combined box area exceeds a tenth of the image area
    and from low to medium when it exceeds a twentieth. -/
def claimSeverityPolicy (n : Nat) (combinedArea imgArea : ℚ) : String :=
  if n = 0 then "none"
  else
    let base := countSeverity n
    if combinedArea > imgArea / 10 then "high"
    else if combinedArea > imgArea / 20 ∧ base = "low" then "medium"
    else base

/-! ## Cluster suggestions (litter_groups_service.py lines 169-265)

The suggestion query selects id, the 3857-projected coordinates and the
severity of every row of litter_reports, with no restriction on group
membership or lock state.  The planar projection is abstracted as a
parameter; it does not affect which report ids feed the clustering.
Per cluster, the aggregate severity calls determine_severity with the
member count, the single 3857 bounding box, and image_size None. -/

/-- The rows fed to DBSCAN: every report, projected. -/
def cluster_suggestion_rows (proj : ℚ → ℚ → ℚ × ℚ) (db : DB) :
    List (Nat × (ℚ × ℚ) × Option String) :=
  db.reports.map (fun r => (r.id, proj r.lng r.lat, r.severity))

/-- The aggregate severity of one suggested cluster: member count as
    object count, the 3857 bounding box as the single box, no image
    size. -/
def clusterSeverity (reportCount : Nat) (minx miny maxx maxy : ℚ) : String :=
  determine_severity reportCount [[minx, miny, maxx, maxy]] none

/-- Modelled from the claim wording of C9: the 4.2 policy applied with
    the member count as object count and the bounding-box area as the
    reference area for the density upgrades. -/
def claimClusterSeverity (reportCount : Nat) (minx miny maxx maxy : ℚ) : String :=
  determine_severity reportCount [[minx, miny, maxx, maxy]]
    (some (maxx - minx, maxy - miny))

/-! ## Safety-net NMS (litter_detections_service.py lines 222-248)

Boxes are x1,y1,x2,y2 quadruples; areas may be negative for degenerate
boxes, exactly as in the source.  The loop keeps the highest-scoring
remaining box and drops every remaining box whose IoU with it exceeds
the threshold; the epsilon 1e-6 of the source is the rational
1/1000000. -/

/-- A detection box. -/
structure Box where
  x1 : ℚ
  y1 : ℚ
  x2 : ℚ
  y2 : ℚ
deriving DecidableEq

def boxArea (b : Box) : ℚ := (b.x2 - b.x1) * (b.y2 - b.y1)

/-- Intersection area of two boxes (clamped to zero). -/
def interArea (a b : Box) : ℚ :=
  max 0 (min a.x2 b.x2 - max a.x1 b.x1) * max 0 (min a.y2 b.y2 - max a.y1 b.y1)

/-- IoU as computed by the source, with the 1e-6 denominator epsilon. -/
def iou (a b : Box) : ℚ :=
  interArea a b / (boxArea a + boxArea b - interArea a b + 1/1000000)

/-- IoU between the boxes at two indices (out-of-range indices read a
    degenerate default, matching that indices always stay in range in
    the source). -/
def iouIdx (boxes : List Box) (i j : Nat) : ℚ :=
  iou (boxes.getD i ⟨0, 0, 0, 0⟩) (boxes.getD j ⟨0, 0, 0, 0⟩)

/-- The greedy suppression loop over a worklist of candidate indices in
    score order: keep the front index, drop the remaining indices whose
    IoU with it exceeds the threshold, recurse. -/
def nmsLoop (boxes : List Box) (iouThresh : ℚ) : List Nat → List Nat
  | [] => []
  | i :: rest =>
      i :: nmsLoop boxes iouThresh
        (rest.filter (fun j => iouIdx boxes i j ≤ iouThresh))
termination_by order => order.length
decreasing_by
  simp only [List.length_cons]
  exact Nat.lt_succ_of_le (List.length_filter_le _ _)

/-- Candidate order: scores.argsort()[::-1], an ascending argsort of
    the scores reversed into descending order. -/
def argsortDesc (scores : List ℚ) : List Nat :=
  ((List.range scores.length).mergeSort
      (fun i j => decide (scores.getD i 0 ≤ scores.getD j 0))).reverse

/-- The safety-net NMS: returns the kept indices. -/
def nms (boxes : List Box) (scores : List ℚ) (iouThresh : ℚ) : List Nat :=
  if boxes = [] then [] else nmsLoop boxes iouThresh (argsortDesc scores)

/-! ## Image fetching and the detection transaction
    (litter_detections_service.py lines 111-195 and 369-429)

The network is an oracle mapping the attempt number to its outcome.
The source tries up to 3 requests, breaking on a 200 or on a 4xx,
retrying otherwise, with the response variable reset to None on a
transport exception; a surviving redirect status with a location header
triggers one further manual request. -/

/-- Outcome of one HTTP request: a transport exception, or a response
    with status code, optional location header, and body bytes. -/
inductive HttpAttempt where
  | exn
  | resp (code : Nat) (location : Option String) (body : List Nat)
deriving DecidableEq

/-- The retry loop of fetch_image_bytes, returning the final value of
    the resp variable.  Attempt numbers start at 1. -/
def fetchLoop (net : Nat → HttpAttempt) : Nat → Option HttpAttempt
  | 0 => none
  | Nat.succ k =>
      let attemptNo := 3 - k
      match net attemptNo with
      | .exn => if k = 0 then none else fetchLoop net k
      | .resp code location body =>
          if code = 200 ∨ (400 ≤ code ∧ code < 500) then some (.resp code location body)
          else if k = 0 then some (.resp code location body)
          else fetchLoop net k

/-- fetch_image_bytes: run the retry loop; fail 500 with no response;
    follow one manual redirect (request number 4) when the final status
    is a redirect carrying a location; fail 502 unless the final status
    is 200. -/
def fetch_image_bytes (net : Nat → HttpAttempt) : Except Nat (List Nat) :=
  match fetchLoop net 3 with
  | none => .error 500
  | some .exn => .error 500
  | some (.resp code location body) =>
      let redirected :=
        if (code = 301 ∨ code = 302 ∨ code = 303 ∨ code = 307 ∨ code = 308)
            ∧ location.isSome then
          match net 4 with
          | .exn => (code, body)
          | .resp code2 _ body2 => (code2, body2)
        else (code, body)
      if redirected.1 = 200 then .ok redirected.2 else .error 502

/-- Outcome of run_detection_on_image_bytes as far as the transaction
    branches on it: an undecodable image, an unexpected model output
    shape, or a normalized result with its object count and severity. -/
inductive RunOutcome where
  | badDecode
  | badShape
  | ok (totalCount : Nat) (severity : String)
deriving DecidableEq

/-- The report columns create_litter_detection touches. -/
structure DetReport where
  status : String
  severity : Option String
  isDetected : Bool
  detectionResults : Option String
deriving DecidableEq

/-- How create_litter_detection ends: raising an HTTPException with
    the given status code, or returning the persisted detection. -/
inductive DetResult where
  | raised (code : Nat)
  | returned
deriving DecidableEq

/-- Result of the transaction: final report row (when one was found),
    number of LitterDetection rows inserted, and the returned value or
    raised HTTP error code. -/
structure DetOutcome where
  report : Option DetReport
  detectionsAdded : Nat
  result : DetResult
deriving DecidableEq

/-- create_litter_detection: fetch report and upload, download the
    image, run detection, and persist.  An HTTPException raised along
    the way is rolled back and re-raised without touching the report
    status; a generic exception sets status error; a zero count sets
    status no-litter and then raises HTTP 400 after committing. -/
def create_litter_detection (report : Option DetReport) (uploadFileUrl : Option (Option String))
    (net : Nat → HttpAttempt) (run : List Nat → RunOutcome) : DetOutcome :=
  match report with
  | none => { report := none, detectionsAdded := 0, result := .raised 404 }
  | some rep =>
      match uploadFileUrl with
      | none => { report := some rep, detectionsAdded := 0, result := .raised 400 }
      | some none => { report := some rep, detectionsAdded := 0, result := .raised 400 }
      | some (some _) =>
          match fetch_image_bytes net with
          | .error code =>
              { report := some rep, detectionsAdded := 0, result := .raised code }
          | .ok body =>
              match run body with
              | .badDecode =>
                  let rep2 := { rep with status := "error", detectionResults := some "BAD_DECODE" }
                  { report := some rep2, detectionsAdded := 0, result := .raised 500 }
              | .badShape =>
                  let rep2 := { rep with status := "error", detectionResults := some "bad shape" }
                  { report := some rep2, detectionsAdded := 0, result := .raised 500 }
              | .ok 0 _ =>
                  let rep2 :=
                    { rep with
                      status := "no-litter", isDetected := false,
                      detectionResults := some "No litter detected" }
                  { report := some rep2, detectionsAdded := 0, result := .raised 400 }
              | .ok (Nat.succ _) sev =>
                  let rep2 :=
                    { rep with
                      severity := some sev, isDetected := true,
                      detectionResults := some "detection payload" }
                  { report := some rep2, detectionsAdded := 1, result := .returned }

/-! ## Haversine ground distance (geoutils.py lines 127-135)

distance_meters is the true-ground-meter notion the repository itself
defines; it is modelled over the reals, with atan2 spelled out as in
the Python math module. -/

noncomputable def atan2 (y x : ℝ) : ℝ :=
  if 0 < x then Real.arctan (y / x)
  else if x < 0 then
    (if 0 ≤ y then Real.arctan (y / x) + Real.pi else Real.arctan (y / x) - Real.pi)
  else (if 0 < y then Real.pi / 2 else if y < 0 then -(Real.pi / 2) else 0)

noncomputable def distance_meters (lat1 lng1 lat2 lng2 : ℝ) : ℝ :=
  let R : ℝ := 6371000
  let phi1 := lat1 * Real.pi / 180
  let phi2 := lat2 * Real.pi / 180
  let dphi := (lat2 - lat1) * Real.pi / 180
  let dlambda := (lng2 - lng1) * Real.pi / 180
  let a := Real.sin (dphi / 2) ^ 2
    + Real.cos phi1 * Real.cos phi2 * Real.sin (dlambda / 2) ^ 2
  R * 2 * atan2 (Real.sqrt a) (Real.sqrt (1 - a))

/-! ## Concrete rows used by counterexamples and witnesses -/

/-- A 64-bit all-zero perceptual hash. -/
def phZero : List Bool := List.replicate 64 false

/-- A 64-bit all-one perceptual hash, at Hamming distance 64 from phZero. -/
def phOne : List Bool := List.replicate 64 true

/-- An existing report at the example point of the specification,
    created at time 1000. -/
def repA : ReportRow :=
  { id := 1, createdAt := 1000, lat := 129716/10000, lng := 775946/10000,
    status := "pending", severity := none, groupId := none, isGrouped := false }

/-- State holding only repA, with a fingerprint for it. -/
def dbA : DB :=
  { uploads := [], reports := [repA],
    fingerprints := [{ reportId := 1, phash := phZero, embedding := [] }], groups := [] }

/-- A submission at the same point as repA, 600 seconds later, whose
    image hashes far away from the stored fingerprint. -/
def subA : Submission :=
  { userId := 9, sessionId := "s", ph := phOne, lat := 129716/10000, lng := 775946/10000,
    newUploadId := 2, newReportId := 2 }

/-- A submission identical to subA but hashing to the stored hash. -/
def subDup : Submission := { subA with ph := phZero }

/-- Integer-coordinate state for witnesses that evaluate by decide. -/
def repW : ReportRow :=
  { id := 1, createdAt := 1000, lat := 12, lng := 77,
    status := "pending", severity := none, groupId := none, isGrouped := false }

def dbW : DB :=
  { uploads := [], reports := [repW],
    fingerprints := [{ reportId := 1, phash := phZero, embedding := [] }], groups := [] }

def subW : Submission :=
  { userId := 9, sessionId := "s", ph := phZero, lat := 12, lng := 77,
    newUploadId := 2, newReportId := 2 }

/-- A locked group one degree of longitude from the origin. -/
def lockedGroup : GroupRow := { id := 1, lat := 0, lng := 1, isLocked := true }

/-- An unlocked group ten degrees of longitude from the origin, about
    1113 kilometers of ground distance. -/
def farGroup : GroupRow := { id := 7, lat := 0, lng := 10, isLocked := false }

/-- A report sitting in the locked group. -/
def repInLocked : ReportRow :=
  { id := 5, createdAt := 0, lat := 0, lng := 1, status := "pending",
    severity := none, groupId := some 1, isGrouped := true }

/-- State with a locked group and a report assigned to it. -/
def dbLocked : DB :=
  { uploads := [], reports := [repInLocked], fingerprints := [], groups := [lockedGroup] }

/-- The identity planar projection used to instantiate the abstract
    3857 reprojection in concrete statements. -/
def projPair : ℚ → ℚ → ℚ × ℚ := fun x y => (x, y)

/-- Network oracle whose every request returns HTTP 404. -/
def net404 : Nat → HttpAttempt := fun _ => .resp 404 none []

/-- A pending report row as the detection transaction finds it. -/
def repPending : DetReport :=
  { status := "pending", severity := none, isDetected := false, detectionResults := none }

/-- The empty relational state. -/
def dbEmpty : DB := { uploads := [], reports := [], fingerprints := [], groups := [] }

/-! # Theorems -/

/-! ## Shared helper lemmas -/

/-- The dup_ids list of the endpoint is nonempty exactly when a recent
    fingerprint matches within the threshold. -/
theorem phashDupIds_ne_nil_iff (db : DB) (now : Int) (ph : List Bool) :
    phashDupIds db now ph ≠ [] ↔
      ∃ fp ∈ db.fingerprints,
        (∃ r ∈ db.reports, r.id = fp.reportId ∧ now - 7 * 86400 ≤ r.createdAt) ∧
          hammingDist ph fp.phash ≤ PHASH_THRESHOLD := by
  unfold phashDupIds recentFingerprintRows
  rw [Ne, List.map_eq_nil_iff, List.filter_eq_nil_iff]
  push_neg
  constructor
  · rintro ⟨fp, hmem, hdist⟩
    rw [List.mem_filter, List.any_eq_true] at hmem
    obtain ⟨hfp, r, hr, hrp⟩ := hmem
    rw [decide_eq_true_eq] at hrp
    rw [decide_eq_true_eq] at hdist
    exact ⟨fp, hfp, ⟨r, hr, hrp⟩, hdist⟩
  · rintro ⟨fp, hfp, ⟨r, hr, hrp⟩, hdist⟩
    refine ⟨fp, ?_, by simpa using hdist⟩
    rw [List.mem_filter, List.any_eq_true]
    exact ⟨hfp, r, hr, by simpa using hrp⟩

/-- Radius attachment never creates or removes fingerprint rows. -/
theorem assign_fingerprints_eq (db : DB) (rid : Nat) (lat lng radius : ℚ) :
    (assign_to_nearest_group db rid lat lng radius).fingerprints = db.fingerprints := by
  unfold assign_to_nearest_group
  cases selectNearestGroup db.groups lat lng radius <;> rfl

/-- On a pHash match the endpoint rejects with the dup_ids list. -/
theorem upload_rejects_of_dup (db : DB) (now : Int) (sub : Submission)
    (h : phashDupIds db now sub.ph ≠ []) :
    upload_create_report_and_detect db now sub =
      (db, .rejected "phash" (phashDupIds db now sub.ph)) := by
  unfold upload_create_report_and_detect
  simp [h]

/-- Without a pHash match the endpoint accepts and returns the new id. -/
theorem upload_accepts_of_no_dup (db : DB) (now : Int) (sub : Submission)
    (h : phashDupIds db now sub.ph = []) :
    (upload_create_report_and_detect db now sub).2 = .created sub.newReportId := by
  unfold upload_create_report_and_detect
  simp [h]

/-! ## Claim C5 -/

/-- Claim C5: the upload endpoint rejects a submission with HTTP 409,
    reason phash and the matched report ids exactly when some
    fingerprint whose report was created within the last 7 days has a
    perceptual hash within Hamming distance 8 of the submitted hash;
    the returned ids are the dup_ids list of matching report ids. -/
theorem claim_C5_phash_reject_iff (db : DB) (now : Int) (sub : Submission) :
    ((∃ ids, (upload_create_report_and_detect db now sub).2 = .rejected "phash" ids) ↔
      ∃ fp ∈ db.fingerprints,
        (∃ r ∈ db.reports, r.id = fp.reportId ∧ now - 7 * 86400 ≤ r.createdAt) ∧
          hammingDist sub.ph fp.phash ≤ PHASH_THRESHOLD) ∧
    (∀ ids, (upload_create_report_and_detect db now sub).2 = .rejected "phash" ids →
      ids = phashDupIds db now sub.ph) := by
  by_cases h : phashDupIds db now sub.ph = []
  · have hacc := upload_accepts_of_no_dup db now sub h
    constructor
    · rw [← phashDupIds_ne_nil_iff db now sub.ph]
      simp only [hacc]
      constructor
      · rintro ⟨ids, hids⟩
        exact absurd hids (by simp)
      · intro hne
        exact absurd h hne
    · intro ids hids
      rw [hacc] at hids
      exact absurd hids (by simp)
  · have hrej := upload_rejects_of_dup db now sub h
    constructor
    · rw [← phashDupIds_ne_nil_iff db now sub.ph]
      simp only [hrej]
      exact ⟨fun _ => h, fun hne => ⟨phashDupIds db now sub.ph, rfl⟩⟩
    · intro ids hids
      rw [hrej] at hids
      simpa using hids.symm

/-- Witness for claim C5: the state dbW holds a week-fresh fingerprint
    at Hamming distance 0 from the submitted hash, and the endpoint
    returns exactly the matching id. -/
theorem claim_C5_witness :
    [1] = phashDupIds dbW 1600 subW.ph :=
  (claim_C5_phash_reject_iff dbW 1600 subW).2 [1] (by decide)

/-! ## Claim C10 -/

/-- Claim C10: a pHash duplicate rejection is raised before any
    database write, so the state after the request is exactly the state
    before it: no upload row, no report row, no fingerprint row. -/
theorem claim_C10_reject_writes_nothing (db : DB) (now : Int) (sub : Submission)
    (ids : List Nat)
    (h : (upload_create_report_and_detect db now sub).2 = .rejected "phash" ids) :
    (upload_create_report_and_detect db now sub).1 = db := by
  by_cases hdup : phashDupIds db now sub.ph = []
  · rw [upload_accepts_of_no_dup db now sub hdup] at h
    exact absurd h (by simp)
  · rw [upload_rejects_of_dup db now sub hdup]

/-- Witness for claim C10: a concrete duplicate submission is rejected
    and leaves the state untouched. -/
theorem claim_C10_witness :
    (upload_create_report_and_detect dbW 1600 subW).1 = dbW :=
  claim_C10_reject_writes_nothing dbW 1600 subW [1] (by decide)

/-! ## Claim C9 -/

/-- Claim C9 counterexample: a suggested cluster of 3 members whose
    single bounding box fills its own reference area entirely gets
    severity low from the code, while the claimed policy (member count
    as object count, bounding-box area as reference area) yields high:
    the code calls determine_severity with image_size None, which
    disables the density upgrade. -/
theorem claim_C9_counterexample :
    clusterSeverity 3 0 0 100 100 = "low" ∧
      claimClusterSeverity 3 0 0 100 100 = "high" ∧
      ("low" : String) ≠ "high" := by
  refine ⟨by norm_num [clusterSeverity, determine_severity], ?_, by decide⟩
  norm_num [claimClusterSeverity, determine_severity, boxesAreaSum]
  decide

/-- Claim C9 amended: the aggregate severity of a suggested cluster is
    the count-only severity policy applied to the member count; the
    density upgrade never fires because the aggregation passes no
    reference image size. -/
theorem claim_C9_cluster_severity_count_only
    (reportCount : Nat) (minx miny maxx maxy : ℚ) :
    clusterSeverity reportCount minx miny maxx maxy = countSeverity reportCount := by
  unfold clusterSeverity determine_severity countSeverity
  split_ifs <;> rfl

/-! ## Claim C2 -/

/-- Claim C2 is a code bug: the transaction docstring guarantees the
    report status is updated on any failure, but an HTTPException from
    the image download (here a 404 from the upload store, surfaced by
    fetch_image_bytes as HTTP 502) is re-raised after rollback without
    touching the report, which stays pending rather than reaching a
    terminal no-litter or error status. -/
theorem claim_C2_code_bug :
    fetch_image_bytes net404 = .error 502 ∧
      create_litter_detection (some repPending) (some (some "img.jpg")) net404
          (fun _ => .ok 1 "low") =
        { report := some repPending, detectionsAdded := 0, result := .raised 502 } ∧
      repPending.status = "pending" := by
  refine ⟨rfl, by decide, rfl⟩

/-! ## Claim C3 -/

/-- Fingerprints written by an accepting run of the endpoint. -/
theorem upload_accept_fingerprints (db : DB) (now : Int) (sub : Submission)
    (hdup : phashDupIds db now sub.ph = []) :
    (upload_create_report_and_detect db now sub).1.fingerprints =
      db.fingerprints ++ [{ reportId := sub.newReportId, phash := sub.ph, embedding := [] }] := by
  unfold upload_create_report_and_detect
  simp only [hdup, ne_eq, not_true_eq_false, if_false]
  simp [assign_fingerprints_eq]

/-- Claim C3 counterexample: a concrete accepted submission yields a
    fingerprint whose embedding is the empty vector of squared norm 0,
    which is not within any tolerance below 1 of unit norm. -/
theorem claim_C3_counterexample :
    (upload_create_report_and_detect dbEmpty 0 subW).2 = .created 2 ∧
    ∃ fp ∈ (upload_create_report_and_detect dbEmpty 0 subW).1.fingerprints,
      fp.reportId = 2 ∧ normSq fp.embedding = 0 ∧
      ∀ ε : ℚ, ε < 1 → ¬(1 - ε ≤ normSq fp.embedding ∧ normSq fp.embedding ≤ 1 + ε) := by
  refine ⟨by decide, { reportId := 2, phash := phZero, embedding := [] }, by decide, rfl, rfl, ?_⟩
  intro ε hε hcon
  have h0 : normSq ([] : List ℚ) = 0 := rfl
  rw [h0] at hcon
  linarith [hcon.1]

/-- Claim C3 amended: for every accepted submission whose fresh report
    id is new to the fingerprint table, exactly one fingerprint row
    exists for the resulting report, holding the submitted hash and the
    empty embedding vector, whose squared L2 norm is 0 rather than 1. -/
theorem claim_C3_one_fingerprint_empty_embedding (db : DB) (now : Int) (sub : Submission)
    (hfresh : ∀ fp ∈ db.fingerprints, fp.reportId ≠ sub.newReportId)
    (hdup : phashDupIds db now sub.ph = []) :
    ((upload_create_report_and_detect db now sub).1.fingerprints.filter
        (fun fp => fp.reportId = sub.newReportId)).length = 1 ∧
    ∀ fp ∈ (upload_create_report_and_detect db now sub).1.fingerprints,
      fp.reportId = sub.newReportId →
        fp.phash = sub.ph ∧ fp.embedding = [] ∧ normSq fp.embedding = 0 := by
  rw [upload_accept_fingerprints db now sub hdup]
  constructor
  · rw [List.filter_append]
    have hold : db.fingerprints.filter (fun fp => fp.reportId = sub.newReportId) = [] := by
      rw [List.filter_eq_nil_iff]
      intro fp hfp
      simpa using hfresh fp hfp
    rw [hold]
    simp
  · intro fp hfp hid
    rcases List.mem_append.1 hfp with hl | hr
    · exact absurd hid (hfresh fp hl)
    · rcases List.mem_singleton.1 hr with rfl
      exact ⟨rfl, rfl, rfl⟩

/-- Witness for claim C3 amended: the concrete accepted run on the
    empty state creates exactly one fingerprint row for report 2 and it
    carries the empty embedding. -/
theorem claim_C3_witness :
    ((upload_create_report_and_detect dbEmpty 0 subW).1.fingerprints.filter
        (fun fp => fp.reportId = 2)).length = 1 ∧
    ∀ fp ∈ (upload_create_report_and_detect dbEmpty 0 subW).1.fingerprints,
      fp.reportId = 2 →
        fp.phash = subW.ph ∧ fp.embedding = [] ∧ normSq fp.embedding = 0 :=
  claim_C3_one_fingerprint_empty_embedding dbEmpty 0 subW
    (by intro fp hfp; simp [dbEmpty] at hfp) (by decide)

/-! ## Claim C4 -/

/-- Claim C4 counterexample: both halves of the claim fail.  The
    attachment SELECT happily returns a locked group (here the nearest
    and only group), and the cluster-suggestion query feeds every
    report, including report 5 already assigned to the locked group. -/
theorem claim_C4_counterexample :
    (¬ ∀ g, selectNearestGroup dbLocked.groups 0 1 500 = some g → g.isLocked = false) ∧
    (¬ ∀ r ∈ dbLocked.reports,
        (∃ g ∈ dbLocked.groups, r.groupId = some g.id ∧ g.isLocked = true) →
          r.id ∉ (cluster_suggestion_rows projPair dbLocked).map (fun x => x.1)) := by
  constructor
  · intro hcl
    have hsel : selectNearestGroup dbLocked.groups 0 1 500 = some lockedGroup := by
      norm_num [selectNearestGroup, nearestStep, groupDistSq, dbLocked, lockedGroup,
        List.filter, List.foldl]
    have := hcl lockedGroup hsel
    simp [lockedGroup] at this
  · intro hcl
    have hmem : repInLocked ∈ dbLocked.reports := by simp [dbLocked]
    have hlock : ∃ g ∈ dbLocked.groups, repInLocked.groupId = some g.id ∧ g.isLocked = true :=
      ⟨lockedGroup, by simp [dbLocked], rfl, rfl⟩
    exact hcl repInLocked hmem hlock
      (by simp [cluster_suggestion_rows, dbLocked, projPair, repInLocked])

/-- Claim C4 amended: the attachment SELECT is entirely insensitive to
    the is_locked flag (rewriting lock flags arbitrarily commutes with
    the selection), and the cluster-suggestion query includes every
    report, whatever its group assignment or the lock state of that
    group. -/
theorem claim_C4_lock_ignored :
    (∀ (f : GroupRow → Bool) (groups : List GroupRow) (lat lng radius : ℚ),
      selectNearestGroup (groups.map (fun g => { g with isLocked := f g })) lat lng radius =
        (selectNearestGroup groups lat lng radius).map (fun g => { g with isLocked := f g })) ∧
    (∀ (proj : ℚ → ℚ → ℚ × ℚ) (db : DB), ∀ r ∈ db.reports,
      r.id ∈ (cluster_suggestion_rows proj db).map (fun x => x.1)) := by
  constructor
  · intro f groups lat lng radius
    unfold selectNearestGroup
    rw [List.filter_map]
    have hpred : ((fun g => decide (groupDistSq g lat lng ≤ radius * radius)) ∘
        (fun g => { g with isLocked := f g })) =
        (fun g => decide (groupDistSq g lat lng ≤ radius * radius)) := by
      funext g
      rfl
    rw [hpred]
    generalize groups.filter (fun g => decide (groupDistSq g lat lng ≤ radius * radius)) = l
    have hstep : ∀ (acc : Option GroupRow) (g : GroupRow),
        nearestStep lat lng (acc.map (fun g => { g with isLocked := f g }))
            { g with isLocked := f g } =
          (nearestStep lat lng acc g).map (fun g => { g with isLocked := f g }) := by
      intro acc g
      cases acc with
      | none => rfl
      | some b =>
          have hdg : ∀ x : GroupRow,
              groupDistSq { x with isLocked := f x } lat lng = groupDistSq x lat lng :=
            fun _ => rfl
          by_cases hlt : groupDistSq g lat lng < groupDistSq b lat lng <;>
            simp [nearestStep, hdg, hlt]
    have key : ∀ (l : List GroupRow) (acc : Option GroupRow),
        (l.map (fun g => { g with isLocked := f g })).foldl (nearestStep lat lng)
            (acc.map (fun g => { g with isLocked := f g })) =
          (l.foldl (nearestStep lat lng) acc).map (fun g => { g with isLocked := f g }) := by
      intro l
      induction l with
      | nil => intro acc; rfl
      | cons g tl ih =>
          intro acc
          rw [List.map_cons, List.foldl_cons, List.foldl_cons, hstep acc g, ih]
    simpa using key l none
  · intro proj db r hr
    exact List.mem_map.2 ⟨(r.id, proj r.lng r.lat, r.severity), List.mem_map.2 ⟨r, hr, rfl⟩, rfl⟩

/-- Witness for claim C4 amended: report 5 of the locked-group state is
    part of the cluster-suggestion input. -/
theorem claim_C4_witness :
    (5 : Nat) ∈ (cluster_suggestion_rows projPair dbLocked).map (fun x => x.1) :=
  claim_C4_lock_ignored.2 projPair dbLocked repInLocked (by simp [dbLocked])

/-! ## Claim C7 -/

/-- Every severity rank is at most 3. -/
theorem sevRank_le_three (s : String) : sevRank s ≤ 3 := by
  unfold sevRank
  split <;> omega

/-- The source severity function agrees with the claimed policy when a
    positive-area image size is supplied. -/
theorem determine_severity_eq_claimPolicy (n : Nat) (boxes : List (List ℚ)) (w h : ℚ)
    (hpos : 0 < w * h) :
    determine_severity n boxes (some (w, h)) =
      claimSeverityPolicy n (boxesAreaSum boxes) (w * h) := by
  unfold determine_severity claimSeverityPolicy
  by_cases hn : n = 0
  · simp [hn]
  · simp only [hn, if_false]
    have hbase : (if n < 5 then "low" else if n < 15 then "medium" else "high")
        = countSeverity n := by
      simp [countSeverity, hn]
    by_cases hb : boxes = []
    · have hz : boxesAreaSum boxes = 0 := by rw [hb]; rfl
      have h10 : ¬ (boxesAreaSum boxes > w * h / 10) := by
        rw [hz]
        intro hcon
        rw [gt_iff_lt, div_lt_iff₀ (by norm_num : (0:ℚ) < 10)] at hcon
        nlinarith
      have h20 : ¬ (boxesAreaSum boxes > w * h / 20 ∧ countSeverity n = "low") := by
        rintro ⟨hcon, -⟩
        rw [hz, gt_iff_lt, div_lt_iff₀ (by norm_num : (0:ℚ) < 20)] at hcon
        nlinarith
      rw [if_pos hb, hbase, if_neg h10, if_neg h20]
    · have himg : ¬ (w * h ≤ 0) := not_le.2 hpos
      rw [if_neg hb, if_neg himg, hbase]
      have e10 : boxesAreaSum boxes / (w * h) > 1 / 10 ↔ boxesAreaSum boxes > w * h / 10 := by
        rw [gt_iff_lt, gt_iff_lt, lt_div_iff₀ hpos, div_lt_iff₀ (by norm_num : (0:ℚ) < 10)]
        constructor <;> intro <;> linarith
      have e20 : boxesAreaSum boxes / (w * h) > 1 / 20 ↔ boxesAreaSum boxes > w * h / 20 := by
        rw [gt_iff_lt, gt_iff_lt, lt_div_iff₀ hpos, div_lt_iff₀ (by norm_num : (0:ℚ) < 20)]
        constructor <;> intro <;> linarith
      simp only [e10, e20]
      by_cases hd : boxesAreaSum boxes > w * h / 10 <;>
        by_cases hB : countSeverity n = "high" <;>
          simp [hd, hB]

/-- The density adjustment never lowers the count level, and the result
    is none exactly at count zero. -/
theorem determine_severity_mono_none (n : Nat) (boxes : List (List ℚ)) (w h : ℚ)
    (hpos : 0 < w * h) :
    sevRank (countSeverity n) ≤ sevRank (determine_severity n boxes (some (w, h))) ∧
    (determine_severity n boxes (some (w, h)) = "none" ↔ n = 0) := by
  rw [determine_severity_eq_claimPolicy n boxes w h hpos]
  unfold claimSeverityPolicy
  by_cases hn : n = 0
  · simp [hn, countSeverity, sevRank]
  · have hne : countSeverity n ≠ "none" := by
      unfold countSeverity
      simp only [hn, if_false]
      split_ifs <;> decide
    constructor
    · simp only [hn, if_false]
      split_ifs with h1 h2
      · exact sevRank_le_three _
      · rw [h2.2]
        decide
      · exact le_refl _
    · simp only [hn, if_false]
      constructor
      · intro hres
        exfalso
        split_ifs at hres with h1 h2
        · exact absurd hres (by decide)
        · exact absurd hres (by decide)
        · exact hne hres
      · intro hcon
        exact hcon.elim

/-- Claim C7: with a positive image area, determine_severity returns
    none exactly at zero objects, otherwise the count level upgraded by
    the combined box area (to high above a tenth of the image area, low
    to medium above a twentieth), and the density adjustment never
    lowers the count level. -/
theorem claim_C7_severity_policy (n : Nat) (boxes : List (List ℚ)) (w h : ℚ)
    (hpos : 0 < w * h) :
    determine_severity n boxes (some (w, h)) =
        claimSeverityPolicy n (boxesAreaSum boxes) (w * h) ∧
    sevRank (countSeverity n) ≤ sevRank (determine_severity n boxes (some (w, h))) ∧
    (determine_severity n boxes (some (w, h)) = "none" ↔ n = 0) :=
  ⟨determine_severity_eq_claimPolicy n boxes w h hpos,
    (determine_severity_mono_none n boxes w h hpos).1,
    (determine_severity_mono_none n boxes w h hpos).2⟩

/-- Witness for claim C7: two objects covering 9 percent of a 100 by
    100 image upgrade low to medium. -/
theorem claim_C7_witness :
    determine_severity 2 [[0, 0, 30, 30]] (some (100, 100)) =
        claimSeverityPolicy 2 (boxesAreaSum [[0, 0, 30, 30]]) (100 * 100) ∧
    sevRank (countSeverity 2) ≤ sevRank (determine_severity 2 [[0, 0, 30, 30]] (some (100, 100))) ∧
    (determine_severity 2 [[0, 0, 30, 30]] (some (100, 100)) = "none" ↔ 2 = 0) :=
  claim_C7_severity_policy 2 [[0, 0, 30, 30]] 100 100 (by norm_num)

/-! ## Claim C8 -/

/-- Intersection area is symmetric. -/
theorem interArea_comm (a b : Box) : interArea a b = interArea b a := by
  unfold interArea
  rw [min_comm a.x2 b.x2, max_comm a.x1 b.x1, min_comm a.y2 b.y2, max_comm a.y1 b.y1]

/-- IoU is symmetric. -/
theorem iou_comm (a b : Box) : iou a b = iou b a := by
  unfold iou
  rw [interArea_comm, add_comm (boxArea a)]

theorem iouIdx_comm (boxes : List Box) (i j : Nat) :
    iouIdx boxes i j = iouIdx boxes j i :=
  iou_comm _ _

/-- The suppression loop only keeps indices of its worklist. -/
theorem nmsLoop_subset (boxes : List Box) (t : ℚ) (order : List Nat) :
    nmsLoop boxes t order ⊆ order := by
  induction order using nmsLoop.induct boxes t with
  | case1 => simp [nmsLoop]
  | case2 i rest ih =>
      rw [nmsLoop]
      intro x hx
      rcases List.mem_cons.1 hx with rfl | hx
      · exact List.mem_cons_self _ _
      · exact List.mem_cons_of_mem _ (List.mem_of_mem_filter (ih hx))

/-- The suppression loop keeps each index at most once. -/
theorem nmsLoop_nodup (boxes : List Box) (t : ℚ) (order : List Nat)
    (h : order.Nodup) : (nmsLoop boxes t order).Nodup := by
  induction order using nmsLoop.induct boxes t with
  | case1 => simp [nmsLoop]
  | case2 i rest ih =>
      rw [nmsLoop]
      rcases List.nodup_cons.1 h with ⟨hi, hrest⟩
      refine List.nodup_cons.2 ⟨?_, ih (hrest.filter _)⟩
      intro hmem
      exact hi (List.mem_of_mem_filter (nmsLoop_subset boxes t _ hmem))

/-- Any two distinct kept indices have IoU at most the threshold: a
    later survivor passed the filter of every earlier survivor. -/
theorem nmsLoop_pairwise (boxes : List Box) (t : ℚ) (order : List Nat) :
    ∀ i ∈ nmsLoop boxes t order, ∀ j ∈ nmsLoop boxes t order,
      i ≠ j → iouIdx boxes i j ≤ t := by
  induction order using nmsLoop.induct boxes t with
  | case1 => simp [nmsLoop]
  | case2 i0 rest ih =>
      rw [nmsLoop]
      intro i hi j hj hne
      rcases List.mem_cons.1 hi with rfl | hi
      · rcases List.mem_cons.1 hj with rfl | hj
        · exact absurd rfl hne
        · have := List.mem_filter.1 (nmsLoop_subset boxes t _ hj)
          exact of_decide_eq_true this.2
      · rcases List.mem_cons.1 hj with rfl | hj
        · have := List.mem_filter.1 (nmsLoop_subset boxes t _ hi)
          rw [iouIdx_comm]
          exact of_decide_eq_true this.2
        · exact ih i hi j hj hne

/-- On a duplicate-free worklist whose indices are pairwise within the
    threshold the suppression loop drops nothing. -/
theorem nmsLoop_keep_all (boxes : List Box) (t : ℚ) (order : List Nat)
    (hpair : ∀ i ∈ order, ∀ j ∈ order, i ≠ j → iouIdx boxes i j ≤ t)
    (hnd : order.Nodup) : nmsLoop boxes t order = order := by
  induction order using nmsLoop.induct boxes t with
  | case1 => rw [nmsLoop]
  | case2 i0 rest ih =>
      rw [nmsLoop]
      rcases List.nodup_cons.1 hnd with ⟨hi0, hrest⟩
      have hfil : rest.filter (fun j => decide (iouIdx boxes i0 j ≤ t)) = rest := by
        rw [List.filter_eq_self]
        intro j hj
        exact decide_eq_true (hpair i0 (List.mem_cons_self _ _) j
          (List.mem_cons_of_mem _ hj) (fun he => hi0 (he ▸ hj)))
      rw [hfil] at ih ⊢
      rw [ih (fun i hi j hj hne =>
        hpair i (List.mem_cons_of_mem _ hi) j (List.mem_cons_of_mem _ hj) hne) hrest]

/-- The descending argsort is a permutation of the index range. -/
theorem argsortDesc_perm (scores : List ℚ) :
    (argsortDesc scores).Perm (List.range scores.length) := by
  unfold argsortDesc
  exact (List.reverse_perm _).trans (List.mergeSort_perm _ _)

theorem argsortDesc_nodup (scores : List ℚ) : (argsortDesc scores).Nodup :=
  ((argsortDesc_perm scores).symm.nodup (List.nodup_range _))

theorem mem_argsortDesc (scores : List ℚ) (i : Nat) :
    i ∈ argsortDesc scores ↔ i < scores.length := by
  rw [(argsortDesc_perm scores).mem_iff, List.mem_range]

/-- NMS keeps every index of an input whose boxes are pairwise within
    the threshold. -/
theorem nms_keeps_all_of_pairwise (b2 : List Box) (s2 : List ℚ) (t : ℚ)
    (hlen : b2.length = s2.length)
    (hpair : ∀ i ∈ argsortDesc s2, ∀ j ∈ argsortDesc s2, i ≠ j → iouIdx b2 i j ≤ t) :
    ∀ j < s2.length, j ∈ nms b2 s2 t := by
  intro j hj
  by_cases hb : b2 = []
  · rw [hb, List.length_nil] at hlen
    rw [← hlen] at hj
    exact absurd hj (Nat.not_lt_zero j)
  · unfold nms
    rw [if_neg hb, nmsLoop_keep_all b2 t _ hpair (argsortDesc_nodup s2), mem_argsortDesc]
    exact hj

/-- Claim C8: the safety-net greedy NMS is idempotent.  No two kept
    boxes have IoU above the threshold, so re-running NMS on the kept
    boxes with their scores keeps every one of them. -/
theorem claim_C8_nms_idempotent (boxes : List Box) (scores : List ℚ) (t : ℚ) :
    (∀ i ∈ nms boxes scores t, ∀ j ∈ nms boxes scores t, i ≠ j → iouIdx boxes i j ≤ t) ∧
    (∀ j < (nms boxes scores t).length,
        j ∈ nms ((nms boxes scores t).map (fun i => boxes.getD i ⟨0, 0, 0, 0⟩))
              ((nms boxes scores t).map (fun i => scores.getD i 0)) t) := by
  have hpair1 : ∀ i ∈ nms boxes scores t, ∀ j ∈ nms boxes scores t,
      i ≠ j → iouIdx boxes i j ≤ t := by
    intro i hi j hj hne
    unfold nms at hi hj
    by_cases hb : boxes = []
    · rw [if_pos hb] at hi
      exact absurd hi (List.not_mem_nil i)
    · rw [if_neg hb] at hi hj
      exact nmsLoop_pairwise boxes t _ i hi j hj hne
  have hknd : (nms boxes scores t).Nodup := by
    unfold nms
    by_cases hb : boxes = []
    · rw [if_pos hb]
      exact List.nodup_nil
    · rw [if_neg hb]
      exact nmsLoop_nodup boxes t _ (argsortDesc_nodup scores)
  refine ⟨hpair1, ?_⟩
  intro j hj
  have hs2len : ((nms boxes scores t).map (fun i => scores.getD i 0)).length
      = (nms boxes scores t).length := List.length_map _ _
  have hb2len : ((nms boxes scores t).map (fun i => boxes.getD i ⟨0, 0, 0, 0⟩)).length
      = (nms boxes scores t).length := List.length_map _ _
  have hgetb : ∀ i', (hi' : i' < (nms boxes scores t).length) →
      ((nms boxes scores t).map (fun i => boxes.getD i ⟨0, 0, 0, 0⟩)).getD i' ⟨0, 0, 0, 0⟩
        = boxes.getD ((nms boxes scores t).getD i' 0) ⟨0, 0, 0, 0⟩ := by
    intro i' hi'
    rw [List.getD_eq_getElem _ _ (by rw [List.length_map]; exact hi'), List.getElem_map,
        List.getD_eq_getElem _ _ hi']
  have hpair2 : ∀ i' ∈ argsortDesc ((nms boxes scores t).map (fun i => scores.getD i 0)),
      ∀ j' ∈ argsortDesc ((nms boxes scores t).map (fun i => scores.getD i 0)),
        i' ≠ j' →
          iouIdx ((nms boxes scores t).map (fun i => boxes.getD i ⟨0, 0, 0, 0⟩)) i' j' ≤ t := by
    intro i' hi' j' hj' hne
    rw [mem_argsortDesc, hs2len] at hi' hj'
    unfold iouIdx
    rw [hgetb i' hi', hgetb j' hj']
    apply hpair1 ((nms boxes scores t).getD i' 0) ?_ ((nms boxes scores t).getD j' 0) ?_ ?_
    · rw [List.getD_eq_getElem _ _ hi']
      exact List.getElem_mem _
    · rw [List.getD_eq_getElem _ _ hj']
      exact List.getElem_mem _
    · rw [List.getD_eq_getElem _ _ hi', List.getD_eq_getElem _ _ hj']
      intro he
      exact hne ((hknd.getElem_inj_iff).1 he)
  exact nms_keeps_all_of_pairwise
    ((nms boxes scores t).map (fun i => boxes.getD i ⟨0, 0, 0, 0⟩))
    ((nms boxes scores t).map (fun i => scores.getD i 0)) t
    (by rw [hs2len, hb2len]) hpair2 j (by rw [hs2len]; exact hj)

/-- Witness for claim C8: a single kept unit box survives the re-run of
    NMS on the kept output. -/
theorem claim_C8_witness :
    0 ∈ nms ((nms [(⟨0, 0, 1, 1⟩ : Box)] [1] (45/100)).map
            (fun i => [(⟨0, 0, 1, 1⟩ : Box)].getD i ⟨0, 0, 0, 0⟩))
          ((nms [(⟨0, 0, 1, 1⟩ : Box)] [1] (45/100)).map (fun i => [(1 : ℚ)].getD i 0))
          (45/100) :=
  (claim_C8_nms_idempotent [⟨0, 0, 1, 1⟩] [1] (45/100)).2 0
    (by simp [nms, argsortDesc, nmsLoop, List.range_succ, List.mergeSort_singleton])

/-! ## Haversine facts -/

/-- The Haversine distance of a point to itself is zero. -/
theorem distance_meters_self (lat lng : ℝ) : distance_meters lat lng lat lng = 0 := by
  unfold distance_meters
  simp only [sub_self, zero_mul, zero_div, Real.sin_zero, atan2]
  norm_num [Real.arctan_zero]

/-- Ten degrees of longitude on the equator is far more than 500
    ground meters (it is about 1113 km). -/
theorem distance_meters_equator_ten : distance_meters 0 0 0 10 > 500 := by
  have hpi := Real.pi_pos
  have hx0 : (0:ℝ) ≤ Real.pi / 36 := by positivity
  have hxpi : Real.pi / 36 ≤ Real.pi := by linarith
  have hxhalf : Real.pi / 36 < Real.pi / 2 := by linarith
  have hxneg : -(Real.pi / 2) < Real.pi / 36 := by linarith
  have hsin : (0:ℝ) ≤ Real.sin (Real.pi / 36) := Real.sin_nonneg_of_nonneg_of_le_pi hx0 hxpi
  have hcos : (0:ℝ) < Real.cos (Real.pi / 36) := Real.cos_pos_of_mem_Ioo ⟨hxneg, hxhalf⟩
  unfold distance_meters
  simp only []
  have h1 : ((0:ℝ) - 0) * Real.pi / 180 / 2 = 0 := by ring
  have h2 : ((10:ℝ) - 0) * Real.pi / 180 / 2 = Real.pi / 36 := by ring
  have h3 : (0:ℝ) * Real.pi / 180 = 0 := by ring
  rw [h1, h2, h3, Real.cos_zero, Real.sin_zero]
  have ha : (0:ℝ) ^ 2 + 1 * 1 * Real.sin (Real.pi / 36) ^ 2 = Real.sin (Real.pi / 36) ^ 2 := by
    ring
  rw [ha, Real.sqrt_sq hsin, ← Real.cos_sq', Real.sqrt_sq hcos.le]
  unfold atan2
  rw [if_pos hcos, ← Real.tan_eq_sin_div_cos, Real.arctan_tan hxneg hxhalf]
  nlinarith [Real.pi_gt_three]

/-! ## Claim C1 -/

/-- Claim C1 counterexample: the state dbA holds a report at the very
    point and time of the submission (ground distance 0, time gap 600
    seconds, both within the claimed window and radius), its image hash
    is far away, yet the endpoint creates the report instead of
    rejecting with reason spatio-temporal: the active endpoint runs no
    spatio-temporal check at all. -/
theorem claim_C1_counterexample :
    ¬ ((∃ r ∈ dbA.reports, |(1600 : Int) - r.createdAt| ≤ TEMPORAL_WINDOW_S ∧
          distance_meters (r.lat : ℝ) (r.lng : ℝ) (subA.lat : ℝ) (subA.lng : ℝ) ≤
            (SPATIAL_RADIUS_M : ℝ)) →
        ∃ ids, (upload_create_report_and_detect dbA 1600 subA).2 =
          .rejected "spatio-temporal" ids) := by
  intro hclaim
  have hdist : distance_meters (repA.lat : ℝ) (repA.lng : ℝ) (subA.lat : ℝ) (subA.lng : ℝ) ≤
      (SPATIAL_RADIUS_M : ℝ) := by
    show distance_meters (subA.lat : ℝ) (subA.lng : ℝ) (subA.lat : ℝ) (subA.lng : ℝ) ≤ _
    rw [distance_meters_self]
    norm_num [SPATIAL_RADIUS_M]
  obtain ⟨ids, hids⟩ := hclaim ⟨repA, by simp [dbA], by decide, hdist⟩
  have hacc : (upload_create_report_and_detect dbA 1600 subA).2 = .created 2 :=
    upload_accepts_of_no_dup dbA 1600 subA (by decide)
  rw [hacc] at hids
  exact absurd hids (by simp)

/-- Claim C1 amended: the active endpoint never rejects with reason
    spatio-temporal; its only outcomes are acceptance or a phash
    rejection.  The helper find_spatio_temporal does compute exactly
    the ids of reports within the time window and the radius predicate,
    but the endpoint does not invoke it. -/
theorem claim_C1_no_spatio_check :
    (∀ (db : DB) (now : Int) (sub : Submission),
        (upload_create_report_and_detect db now sub).2 = .created sub.newReportId ∨
        ∃ ids, (upload_create_report_and_detect db now sub).2 = .rejected "phash" ids) ∧
    (∀ (reports : List ReportRow) (ts windowS : Int) (withinR : ReportRow → Bool) (rid : Nat),
        rid ∈ find_spatio_temporal reports ts windowS withinR ↔
          ∃ r ∈ reports, r.id = rid ∧ ts - windowS ≤ r.createdAt ∧
            r.createdAt ≤ ts + windowS ∧ withinR r = true) := by
  constructor
  · intro db now sub
    by_cases h : phashDupIds db now sub.ph = []
    · exact Or.inl (upload_accepts_of_no_dup db now sub h)
    · exact Or.inr ⟨phashDupIds db now sub.ph, by rw [upload_rejects_of_dup db now sub h]⟩
  · intro reports ts windowS withinR rid
    unfold find_spatio_temporal
    rw [List.mem_map]
    constructor
    · rintro ⟨r, hr, rfl⟩
      rw [List.mem_filter] at hr
      obtain ⟨hmem, hp⟩ := hr
      simp only [Bool.and_eq_true, decide_eq_true_eq] at hp
      exact ⟨r, hmem, rfl, hp.1.1, hp.1.2, hp.2⟩
    · rintro ⟨r, hmem, rfl, h1, h2, h3⟩
      refine ⟨r, ?_, rfl⟩
      rw [List.mem_filter]
      refine ⟨hmem, ?_⟩
      simp only [Bool.and_eq_true, decide_eq_true_eq]
      exact ⟨⟨h1, h2⟩, h3⟩

/-! ## Claim C6 -/

/-- Claim C6 is a code bug: the attachment SQL runs ST_DWithin and
    ST_Distance on raw 4326 geometry, so the radius 500 passed as
    radius_m (documented as meters) is compared against degrees.  An
    unlocked group ten degrees of longitude away, more than 500 (in
    fact about 1113000) ground meters by the repository Haversine, is
    nonetheless selected for attachment. -/
theorem claim_C6_code_bug :
    distance_meters 0 0 0 10 > 500 ∧
    selectNearestGroup [farGroup] 0 0 500 = some farGroup ∧
    farGroup.isLocked = false := by
  refine ⟨distance_meters_equator_ten, ?_, rfl⟩
  norm_num [selectNearestGroup, nearestStep, groupDistSq, farGroup, List.filter, List.foldl]

end Sweepzy
